import Mathlib

/-!
Verification of the prediction-market swap endpoint (src/api/maniswap.rs).

The Rust source consists of a single serverless handler: it deserializes a
JSON body into a SwapRequest, dispatches on which pool token is being sold,
calls the pure function maniswap_swap, and returns the amounts plus updated
reserves, or an HTTP 400 response for a malformed body or an unrecognized
input token.

The embedding models the f64 arithmetic of maniswap_swap over the real
numbers (Real.rpow for Rust powf), and the handler as a total function from
a JSON value to an HTTP response. Division by zero follows the Lean
convention x / 0 = 0.
-/

namespace PredictionMarket

/-- Mirrors the Rust struct SwapRequest deserialized from the request body. -/
structure SwapRequest where
  token_a : String
  reserve_a : ℝ
  token_b : String
  reserve_b : ℝ
  input_token : String
  amount_in : ℝ

/-- Mirrors the Rust struct SwapResponse serialized on success. -/
structure SwapResponse where
  amount_out : ℝ
  new_reserve_a : ℝ
  new_reserve_b : ℝ

/-- The body of an HTTP response: a serialized SwapResponse on success, a
plain-text message on error. -/
inductive ResponseBody where
  | json : SwapResponse → ResponseBody
  | text : String → ResponseBody

/-- An HTTP response: status code plus body. -/
structure HttpResponse where
  status : Nat
  body : ResponseBody

/-- Embedding of maniswap_swap (src/api/maniswap.rs lines 79-88), with the
f64 arithmetic read over the reals: powf is Real.rpow and the weight p
is the literal 0.5. -/
noncomputable def maniswap_swap (reserve_in reserve_out amount_in : ℝ) : ℝ :=
  let p : ℝ := 0.5
  let y := reserve_out
  let n := reserve_in + amount_in
  let k := y ^ p * n ^ (1 - p)
  let new_y := k / n ^ (1 - p)
  y - new_y

/-- Embedding of the handler after a successful parse (src/api/maniswap.rs
lines 37-77): branch on input_token, compute the swap and the new
reserves, or answer 400 "Invalid input token". -/
noncomputable def computeSwap (req : SwapRequest) : HttpResponse :=
  if req.input_token = req.token_a then
    let amount_out := maniswap_swap req.reserve_a req.reserve_b req.amount_in
    ⟨200, .json ⟨amount_out, req.reserve_a + req.amount_in, req.reserve_b - amount_out⟩⟩
  else if req.input_token = req.token_b then
    let amount_out := maniswap_swap req.reserve_b req.reserve_a req.amount_in
    ⟨200, .json ⟨amount_out, req.reserve_a - amount_out, req.reserve_b + req.amount_in⟩⟩
  else
    ⟨400, .text "Invalid input token"⟩

/-- A JSON value, the shape serde_json parses the request body into. -/
inductive Json where
  | null : Json
  | bool : Bool → Json
  | num : ℝ → Json
  | str : String → Json
  | arr : List Json → Json
  | obj : List (String × Json) → Json

/-- First value bound to a key in a JSON object's field list. -/
def jsonLookup (fields : List (String × Json)) (key : String) : Option Json :=
  match fields with
  | [] => none
  | (k, v) :: rest => if k = key then some v else jsonLookup rest key

/-- A string field, or failure if the value has another type. -/
def asString : Json → Option String
  | .str s => some s
  | _ => none

/-- A numeric field, or failure if the value has another type. -/
def asNumber : Json → Option ℝ
  | .num x => some x
  | _ => none

/-- Deserialization of the request body into a SwapRequest, modelling
serde_json::from_slice for the derived Deserialize instance: every field
must be present with the declared type, otherwise parsing fails. -/
def parseSwapRequest : Json → Option SwapRequest
  | .obj fields => do
    let ta ← (jsonLookup fields "token_a").bind asString
    let ra ← (jsonLookup fields "reserve_a").bind asNumber
    let tb ← (jsonLookup fields "token_b").bind asString
    let rb ← (jsonLookup fields "reserve_b").bind asNumber
    let it ← (jsonLookup fields "input_token").bind asString
    let ai ← (jsonLookup fields "amount_in").bind asNumber
    pure ⟨ta, ra, tb, rb, it, ai⟩
  | _ => none

/-- Embedding of the full handler (src/api/maniswap.rs lines 27-77): parse
the body, answering 400 "Invalid request body" on failure, then compute
the swap. -/
noncomputable def handler (requestBody : Json) : HttpResponse :=
  match parseSwapRequest requestBody with
  | none => ⟨400, .text "Invalid request body"⟩
  | some req => computeSwap req

/-- Modelled from the spec, section 4.1: the three literal algorithm steps
for the swap with fixed weight p = 0.5, written with exponent 0.5 on both
factors as the spec's design notes spell them out. Used only to compare
against maniswap_swap. -/
noncomputable def spec_swap (reserve_in reserve_out amount_in : ℝ) : ℝ :=
  let n := reserve_in + amount_in
  let k := reserve_out ^ (0.5 : ℝ) * n ^ (0.5 : ℝ)
  let new_y := k / n ^ (0.5 : ℝ)
  reserve_out - new_y

/-- Embedding of maniswap_swap that tracks the one ill-defined f64 operation
on non-negative inputs: when the divisor n ^ (1 - p) is zero the invariant k
is also zero (reserve_out ^ p * 0), so the Rust code computes 0.0 / 0.0 =
NaN; that case is modelled as failure. On every other input the result is
the real value of maniswap_swap, where the pure embedding's x / 0 = 0
convention never fires. -/
noncomputable def maniswap_swapChecked (reserve_in reserve_out amount_in : ℝ) :
    Option ℝ :=
  let p : ℝ := 0.5
  let y := reserve_out
  let n := reserve_in + amount_in
  let k := y ^ p * n ^ (1 - p)
  if n ^ (1 - p) = 0 then none else some (y - k / n ^ (1 - p))

/-- When the post-trade input reserve n is positive, the n-powers cancel
and the swap returns reserve_out - reserve_out ^ 0.5. -/
theorem maniswap_swap_of_pos (reserve_in reserve_out amount_in : ℝ)
    (h : 0 < reserve_in + amount_in) :
    maniswap_swap reserve_in reserve_out amount_in
      = reserve_out - reserve_out ^ (0.5 : ℝ) := by
  have hne : (reserve_in + amount_in) ^ ((1 : ℝ) - 0.5) ≠ 0 :=
    (Real.rpow_pos_of_pos h _).ne'
  simp only [maniswap_swap]
  rw [mul_div_assoc, div_self hne, mul_one]

/-- When the post-trade input reserve n is zero, the invariant k is zero
and new_y = 0 / 0 = 0, so the swap returns reserve_out itself. -/
theorem maniswap_swap_of_zero (reserve_in reserve_out amount_in : ℝ)
    (h : reserve_in + amount_in = 0) :
    maniswap_swap reserve_in reserve_out amount_in = reserve_out := by
  have hne : ((1 : ℝ) - 0.5) ≠ 0 := by norm_num
  simp only [maniswap_swap, h, Real.zero_rpow hne, mul_zero, zero_div, sub_zero]

/-- Raising a negative real to the power 0.5 gives zero: the real part of
the principal complex power vanishes since cos (pi / 2) = 0. -/
theorem rpow_half_of_neg (x : ℝ) (h : x < 0) : x ^ (0.5 : ℝ) = 0 := by
  rw [Real.rpow_def_of_neg h]
  have hc : (0.5 : ℝ) * Real.pi = Real.pi / 2 := by ring
  rw [hc, Real.cos_pi_div_two, mul_zero]

/-- The power x ^ 0.5 agrees with the square root for every real x. -/
theorem rpow_half_eq_sqrt (x : ℝ) : x ^ (0.5 : ℝ) = Real.sqrt x := by
  rw [Real.sqrt_eq_rpow]
  norm_num

/-- Concrete evaluation: 100 ^ 0.5 = 10. -/
theorem rpow_half_hundred : (100 : ℝ) ^ (0.5 : ℝ) = 10 := by
  rw [rpow_half_eq_sqrt]
  rw [show (100 : ℝ) = 10 ^ 2 by norm_num, Real.sqrt_sq (by norm_num : (0 : ℝ) ≤ 10)]

/-- Concrete evaluation: 4 ^ 0.5 = 2. -/
theorem rpow_half_four : (4 : ℝ) ^ (0.5 : ℝ) = 2 := by
  rw [rpow_half_eq_sqrt]
  rw [show (4 : ℝ) = 2 ^ 2 by norm_num, Real.sqrt_sq (by norm_num : (0 : ℝ) ≤ 2)]

/-- Concrete evaluation: 9 ^ 0.5 = 3. -/
theorem rpow_half_nine : (9 : ℝ) ^ (0.5 : ℝ) = 3 := by
  rw [rpow_half_eq_sqrt]
  rw [show (9 : ℝ) = 3 ^ 2 by norm_num, Real.sqrt_sq (by norm_num : (0 : ℝ) ≤ 3)]

/-- A concrete request that sells token A (spec section 8, property 2). -/
def reqSellA : SwapRequest :=
  { token_a := "X", reserve_a := 100, token_b := "Y", reserve_b := 100,
    input_token := "X", amount_in := 10 }

/-- A concrete request that sells token B. -/
def reqSellB : SwapRequest :=
  { token_a := "X", reserve_a := 100, token_b := "Y", reserve_b := 50,
    input_token := "Y", amount_in := 7 }

/-- A concrete request whose input token matches neither pool token. -/
def reqBadToken : SwapRequest :=
  { token_a := "X", reserve_a := 100, token_b := "Y", reserve_b := 100,
    input_token := "Z", amount_in := 10 }

/-- A concrete request whose two pool tokens carry the same identifier. -/
def reqSameTokens : SwapRequest :=
  { token_a := "T", reserve_a := 5, token_b := "T", reserve_b := 8,
    input_token := "T", amount_in := 2 }

/-- A concrete request selling token A with amount_in = 0. -/
def reqZeroInput : SwapRequest :=
  { token_a := "X", reserve_a := 4, token_b := "Y", reserve_b := 9,
    input_token := "X", amount_in := 0 }

/-- A concrete JSON body that parses to reqBadToken. -/
def bodyBadToken : Json :=
  .obj [("token_a", .str "X"), ("reserve_a", .num 100), ("token_b", .str "Y"),
    ("reserve_b", .num 100), ("input_token", .str "Z"), ("amount_in", .num 10)]

/-- A concrete JSON body missing the amount field, so parsing fails. -/
def bodyMissingAmount : Json :=
  .obj [("token_a", .str "X"), ("reserve_a", .num 100), ("token_b", .str "Y"),
    ("reserve_b", .num 100), ("input_token", .str "X")]

/-- C1: for every reserve_in, reserve_out, amount_in, maniswap_swap computes
n = reserve_in + amount_in, k = reserve_out ^ 0.5 * n ^ 0.5,
new_y = k / n ^ 0.5 and returns reserve_out - new_y, exactly the three
literal steps of the spec's algorithm with fixed weight p = 0.5. -/
theorem C1_swap_follows_literal_steps (reserve_in reserve_out amount_in : ℝ) :
    maniswap_swap reserve_in reserve_out amount_in
      = spec_swap reserve_in reserve_out amount_in := by
  simp only [maniswap_swap, spec_swap]
  norm_num

/-- C2 as stated is false: at reserve_in = 0, reserve_out = 4 the result
does depend on amount_in, because at amount_in = 0 the divisor n ^ 0.5 is
zero and the division-by-zero convention yields amount_out = 4, while
amount_in = 1 yields 4 - 4 ^ 0.5 = 2. -/
theorem C2_counterexample : maniswap_swap 0 4 0 ≠ maniswap_swap 0 4 1 := by
  have h0 : maniswap_swap 0 4 0 = 4 := maniswap_swap_of_zero 0 4 0 (by norm_num)
  have h1 : maniswap_swap 0 4 1 = 4 - (4 : ℝ) ^ (0.5 : ℝ) :=
    maniswap_swap_of_pos 0 4 1 (by norm_num)
  rw [h0, h1, rpow_half_four]
  norm_num

/-- C2 amended: whenever the post-trade input reserve reserve_in + amount_in
is positive, new_y collapses to reserve_out ^ 0.5, so the swap returns
reserve_out - reserve_out ^ 0.5 and is independent of the input amount
among all amounts keeping reserve_in + amount_in positive. -/
theorem C2_amended_result_ignores_amount_in (reserve_in reserve_out a1 a2 : ℝ)
    (h1 : 0 < reserve_in + a1) (h2 : 0 < reserve_in + a2) :
    maniswap_swap reserve_in reserve_out a1
        = reserve_out - reserve_out ^ (0.5 : ℝ) ∧
    maniswap_swap reserve_in reserve_out a1
        = maniswap_swap reserve_in reserve_out a2 := by
  refine ⟨maniswap_swap_of_pos _ _ _ h1, ?_⟩
  rw [maniswap_swap_of_pos _ _ _ h1, maniswap_swap_of_pos _ _ _ h2]

/-- Witness for C2 amended at reserve_in = 1, reserve_out = 4, a1 = 0,
a2 = 1. -/
theorem C2_amended_witness :
    ((0 : ℝ) < 1 + 0 ∧ (0 : ℝ) < 1 + 1) ∧
    (maniswap_swap 1 4 0 = 4 - (4 : ℝ) ^ (0.5 : ℝ) ∧
      maniswap_swap 1 4 0 = maniswap_swap 1 4 1) :=
  ⟨⟨by norm_num, by norm_num⟩,
    C2_amended_result_ignores_amount_in 1 4 0 1 (by norm_num) (by norm_num)⟩

/-- C3 as stated is false: the formula does not reduce to zero; for
reserve_in = 1, reserve_out = 4, amount_in = 0 the exact result is
4 - 4 ^ 0.5 = 2, not 0. -/
theorem C3_counterexample : maniswap_swap 1 4 0 ≠ 0 := by
  rw [maniswap_swap_of_pos 1 4 0 (by norm_num), rpow_half_four]
  norm_num

/-- C3 amended: with a positive post-trade input reserve the swap reduces to
reserve_out - reserve_out ^ 0.5, which is zero exactly when
reserve_out ^ 0.5 equals reserve_out, not for all inputs. -/
theorem C3_amended_zero_iff (reserve_in reserve_out amount_in : ℝ)
    (h : 0 < reserve_in + amount_in) :
    maniswap_swap reserve_in reserve_out amount_in = 0 ↔
      reserve_out ^ (0.5 : ℝ) = reserve_out := by
  rw [maniswap_swap_of_pos _ _ _ h, sub_eq_zero]
  exact eq_comm

/-- Witness for C3 amended at reserve_in = 2, reserve_out = 1,
amount_in = 0. -/
theorem C3_amended_witness :
    (0 : ℝ) < 2 + 0 ∧
    (maniswap_swap 2 1 0 = 0 ↔ (1 : ℝ) ^ (0.5 : ℝ) = 1) :=
  ⟨by norm_num, C3_amended_zero_iff 2 1 0 (by norm_num)⟩

/-- With a positive post-trade input reserve the divisor is nonzero, the
checked computation is defined and agrees with the pure embedding. -/
theorem maniswap_swapChecked_of_pos (reserve_in reserve_out amount_in : ℝ)
    (h : 0 < reserve_in + amount_in) :
    maniswap_swapChecked reserve_in reserve_out amount_in
      = some (maniswap_swap reserve_in reserve_out amount_in) := by
  have hne : (reserve_in + amount_in) ^ ((1 : ℝ) - 0.5) ≠ 0 :=
    (Real.rpow_pos_of_pos h _).ne'
  simp only [maniswap_swapChecked, maniswap_swap, if_neg hne]

/-- C4 as stated is false on the code: at reserve_in = 0, reserve_out = 4,
amount_in = 0 (inside the claim's non-negative region) the divisor
n ^ 0.5 is zero, the code computes 0.0 / 0.0 = NaN, and so no real
amount_out bounded by reserve_out is returned. -/
theorem C4_counterexample : maniswap_swapChecked 0 4 0 = none := by
  have h : ((0 : ℝ) + 0) ^ ((1 : ℝ) - 0.5) = 0 := by
    rw [add_zero, Real.zero_rpow (by norm_num)]
  simp only [maniswap_swapChecked]
  rw [if_pos h]

/-- C4 amended: for non-negative reserves and input amount with a positive
post-trade input reserve, the computation is well defined and the returned
amount_out never exceeds the pre-swap output reserve. -/
theorem C4_amended_amount_out_le_reserve_out (reserve_in reserve_out amount_in : ℝ)
    (hin : 0 ≤ reserve_in) (hout : 0 ≤ reserve_out) (ha : 0 ≤ amount_in)
    (hpos : 0 < reserve_in + amount_in) :
    maniswap_swapChecked reserve_in reserve_out amount_in
        = some (maniswap_swap reserve_in reserve_out amount_in) ∧
    maniswap_swap reserve_in reserve_out amount_in ≤ reserve_out := by
  refine ⟨maniswap_swapChecked_of_pos _ _ _ hpos, ?_⟩
  rw [maniswap_swap_of_pos _ _ _ hpos]
  have hp := Real.rpow_nonneg hout (0.5 : ℝ)
  linarith

/-- Witness for C4 amended at reserve_in = 1, reserve_out = 4,
amount_in = 1. -/
theorem C4_amended_witness :
    ((0 : ℝ) ≤ 1 ∧ (0 : ℝ) ≤ 4 ∧ (0 : ℝ) ≤ 1 ∧ (0 : ℝ) < 1 + 1) ∧
    (maniswap_swapChecked 1 4 1 = some (maniswap_swap 1 4 1) ∧
      maniswap_swap 1 4 1 ≤ 4) :=
  ⟨⟨by norm_num, by norm_num, by norm_num, by norm_num⟩,
    C4_amended_amount_out_le_reserve_out 1 4 1 (by norm_num) (by norm_num)
      (by norm_num) (by norm_num)⟩

/-- C5: when input_token equals token_a the sell-A branch runs:
amount_out = maniswap_swap reserve_a reserve_b amount_in,
new_reserve_a = reserve_a + amount_in and
new_reserve_b = reserve_b - amount_out, with HTTP status 200. -/
theorem C5_sell_a_branch (req : SwapRequest) (h : req.input_token = req.token_a) :
    computeSwap req =
      ⟨200, .json ⟨maniswap_swap req.reserve_a req.reserve_b req.amount_in,
        req.reserve_a + req.amount_in,
        req.reserve_b - maniswap_swap req.reserve_a req.reserve_b req.amount_in⟩⟩ := by
  simp only [computeSwap, if_pos h]

/-- Witness for C5 at the spec's concrete request: token_a = X,
reserve_a = 100, token_b = Y, reserve_b = 100, input_token = X,
amount_in = 10, where the sell-A branch gives new_reserve_a = 110. -/
theorem C5_witness :
    reqSellA.input_token = reqSellA.token_a ∧
    computeSwap reqSellA =
      ⟨200, .json ⟨maniswap_swap 100 100 10, 110, 100 - maniswap_swap 100 100 10⟩⟩ := by
  refine ⟨rfl, ?_⟩
  have h := C5_sell_a_branch reqSellA rfl
  rw [h]
  norm_num [reqSellA]

/-- C6: when input_token differs from token_a but equals token_b the sell-B
branch runs: amount_out = maniswap_swap reserve_b reserve_a amount_in,
new_reserve_a = reserve_a - amount_out and
new_reserve_b = reserve_b + amount_in; on this branch one reserve grows by
exactly amount_in while the other moves by exactly minus amount_out. -/
theorem C6_sell_b_branch (req : SwapRequest) (hna : req.input_token ≠ req.token_a)
    (hb : req.input_token = req.token_b) :
    computeSwap req =
      ⟨200, .json ⟨maniswap_swap req.reserve_b req.reserve_a req.amount_in,
        req.reserve_a - maniswap_swap req.reserve_b req.reserve_a req.amount_in,
        req.reserve_b + req.amount_in⟩⟩ ∧
    (req.reserve_b + req.amount_in) - req.reserve_b = req.amount_in ∧
    (req.reserve_a - maniswap_swap req.reserve_b req.reserve_a req.amount_in)
        - req.reserve_a
      = -(maniswap_swap req.reserve_b req.reserve_a req.amount_in) := by
  refine ⟨?_, by ring, by ring⟩
  simp only [computeSwap, if_neg hna, if_pos hb]

/-- Witness for C6 at a concrete sell-B request: token_a = X with reserve
100, token_b = Y with reserve 50, input_token = Y, amount_in = 7. -/
theorem C6_witness :
    (reqSellB.input_token ≠ reqSellB.token_a ∧
      reqSellB.input_token = reqSellB.token_b) ∧
    computeSwap reqSellB =
      ⟨200, .json ⟨maniswap_swap reqSellB.reserve_b reqSellB.reserve_a reqSellB.amount_in,
        reqSellB.reserve_a
          - maniswap_swap reqSellB.reserve_b reqSellB.reserve_a reqSellB.amount_in,
        reqSellB.reserve_b + reqSellB.amount_in⟩⟩ :=
  ⟨⟨by decide, rfl⟩, (C6_sell_b_branch reqSellB (by decide) rfl).1⟩

/-- C7: a parsed request whose input token matches neither pool token is
answered with HTTP 400 and the plain-text body Invalid input token, with no
swap result computed. -/
theorem C7_invalid_token_rejected (body : Json) (req : SwapRequest)
    (hp : parseSwapRequest body = some req)
    (hna : req.input_token ≠ req.token_a) (hnb : req.input_token ≠ req.token_b) :
    handler body = ⟨400, .text "Invalid input token"⟩ := by
  simp only [handler, hp, computeSwap, if_neg hna, if_neg hnb]

/-- Witness for C7 at a parseable body whose input token Z matches neither
X nor Y. -/
theorem C7_witness :
    (parseSwapRequest bodyBadToken = some reqBadToken ∧
      reqBadToken.input_token ≠ reqBadToken.token_a ∧
      reqBadToken.input_token ≠ reqBadToken.token_b) ∧
    handler bodyBadToken = ⟨400, .text "Invalid input token"⟩ :=
  ⟨⟨rfl, by decide, by decide⟩,
    C7_invalid_token_rejected bodyBadToken reqBadToken rfl (by decide) (by decide)⟩

/-- C8: a body that does not parse into a SwapRequest is answered with HTTP
400 and the plain-text body Invalid request body, with no swap computation
performed. -/
theorem C8_malformed_body_rejected (body : Json)
    (hp : parseSwapRequest body = none) :
    handler body = ⟨400, .text "Invalid request body"⟩ := by
  simp only [handler, hp]

/-- Witness for C8 at a body missing the amount field. -/
theorem C8_witness :
    parseSwapRequest bodyMissingAmount = none ∧
    handler bodyMissingAmount = ⟨400, .text "Invalid request body"⟩ :=
  ⟨rfl, C8_malformed_body_rejected bodyMissingAmount rfl⟩

/-- C9: nothing validates that token_a differs from token_b; when both pool
tokens carry the same identifier and input_token equals it, the first
(sell-A) branch runs and a normal HTTP 200 result is returned. -/
theorem C9_duplicate_tokens_sell_a (req : SwapRequest)
    (_hdup : req.token_a = req.token_b) (hin : req.input_token = req.token_a) :
    computeSwap req =
      ⟨200, .json ⟨maniswap_swap req.reserve_a req.reserve_b req.amount_in,
        req.reserve_a + req.amount_in,
        req.reserve_b - maniswap_swap req.reserve_a req.reserve_b req.amount_in⟩⟩ := by
  simp only [computeSwap, if_pos hin]

/-- Witness for C9 at a request where both pool tokens are T and the input
token is T. -/
theorem C9_witness :
    (reqSameTokens.token_a = reqSameTokens.token_b ∧
      reqSameTokens.input_token = reqSameTokens.token_a) ∧
    computeSwap reqSameTokens =
      ⟨200, .json ⟨maniswap_swap reqSameTokens.reserve_a reqSameTokens.reserve_b
          reqSameTokens.amount_in,
        reqSameTokens.reserve_a + reqSameTokens.amount_in,
        reqSameTokens.reserve_b - maniswap_swap reqSameTokens.reserve_a
          reqSameTokens.reserve_b reqSameTokens.amount_in⟩⟩ :=
  ⟨⟨rfl, rfl⟩, C9_duplicate_tokens_sell_a reqSameTokens rfl rfl⟩

/-- C10 as stated is false on two counts: at reserve_in = 0 the zero-input
swap returns 9, not 9 - 9 ^ 0.5 = 6; and a zero-input sell-A request leaves
new_reserve_a = reserve_a + 0 equal to reserve_a, so only the output-side
reserve changes, not both. -/
theorem C10_counterexample :
    maniswap_swap 0 9 0 ≠ 9 - (9 : ℝ) ^ (0.5 : ℝ) ∧
    computeSwap reqZeroInput =
      ⟨200, .json ⟨maniswap_swap 4 9 0, 4, 9 - maniswap_swap 4 9 0⟩⟩ := by
  constructor
  · rw [maniswap_swap_of_zero 0 9 0 (by norm_num), rpow_half_nine]
    norm_num
  · have h : computeSwap reqZeroInput =
        ⟨200, .json ⟨maniswap_swap 4 9 0, 4 + 0, 9 - maniswap_swap 4 9 0⟩⟩ := rfl
    rw [h]
    norm_num

/-- C10 amended: for a positive input-side reserve, a zero-amount swap still
returns reserve_out - reserve_out ^ 0.5, which is nonzero for every
reserve_out other than 0 and 1, so a zero-input request still changes the
output-side reserve (while the input-side reserve stays put). -/
theorem C10_amended_zero_input_not_noop (reserve_in reserve_out : ℝ)
    (h : 0 < reserve_in) :
    maniswap_swap reserve_in reserve_out 0
        = reserve_out - reserve_out ^ (0.5 : ℝ) ∧
    (reserve_out ≠ 0 → reserve_out ≠ 1 →
      maniswap_swap reserve_in reserve_out 0 ≠ 0) := by
  have heq : maniswap_swap reserve_in reserve_out 0
      = reserve_out - reserve_out ^ (0.5 : ℝ) :=
    maniswap_swap_of_pos _ _ _ (by linarith)
  refine ⟨heq, fun h0 h1 => ?_⟩
  rw [heq, sub_ne_zero]
  intro hcontra
  rcases lt_trichotomy reserve_out 0 with hneg | hz | hpos
  · rw [rpow_half_of_neg _ hneg] at hcontra
    exact h0 hcontra
  · exact h0 hz
  · rw [rpow_half_eq_sqrt] at hcontra
    have h2 : reserve_out ^ 2 = reserve_out := by
      nth_rewrite 1 [hcontra]
      exact Real.sq_sqrt hpos.le
    have h3 : reserve_out * reserve_out = reserve_out * 1 := by
      rw [mul_one, ← pow_two]
      exact h2
    exact h1 (mul_left_cancel₀ h0 h3)

/-- Witness for C10 amended at reserve_in = 1, reserve_out = 9. -/
theorem C10_amended_witness :
    (0 : ℝ) < 1 ∧
    (maniswap_swap 1 9 0 = 9 - (9 : ℝ) ^ (0.5 : ℝ) ∧
      ((9 : ℝ) ≠ 0 → (9 : ℝ) ≠ 1 → maniswap_swap 1 9 0 ≠ 0)) :=
  ⟨by norm_num, C10_amended_zero_input_not_noop 1 9 (by norm_num)⟩

end PredictionMarket
